import Mathlib

/-!
Shallow embedding of `drivers/misc/radio_ctrl/wrigley_ctrl.c`, the power
sequencing controller for the Wrigley modem, together with theorems checking
the specification's claims about it.

The C driver owns four GPIO lines (disable, power, flash-strap, reset-sense),
a status enum, a boot-mode flag and a suspend flag.  In the embedding the
three output lines are recorded as driven boolean levels; the reset-sense
line is an input, so each operation that polls it receives an environment
function `reads : Nat → Bool` giving the level observed at poll iteration
`i`.  Error codes are modelled as `Int` exactly as the C returns them
(`0` success, `-1` the shared power-up failure code, `-EINVAL` for an
unsupported command).  Observable side effects other than state updates
(uevents, the power-down call of the reboot hook) are recorded in an event
trace.
-/

/-- `enum wrigley_status` value `WRIGLEY_STATUS_NORMAL`.  The C enum is an
`int`; the embedding keeps the numeric representation (`Nat`) so that the
out-of-range clamp in `wrigley_status_show` is expressible. -/
def WRIGLEY_STATUS_NORMAL : Nat := 0

/-- `enum wrigley_status` value `WRIGLEY_STATUS_FLASH`. -/
def WRIGLEY_STATUS_FLASH : Nat := 1

/-- `enum wrigley_status` value `WRIGLEY_STATUS_RESETTING`. -/
def WRIGLEY_STATUS_RESETTING : Nat := 2

/-- `enum wrigley_status` value `WRIGLEY_STATUS_OFF`. -/
def WRIGLEY_STATUS_OFF : Nat := 3

/-- `enum wrigley_status` value `WRIGLEY_STATUS_UNDEFINED`. -/
def WRIGLEY_STATUS_UNDEFINED : Nat := 4

/-- Linux `EINVAL` errno (22); `wrigley_command` returns `-EINVAL` for an
unrecognised command string. -/
def EINVAL : Int := 22

/-- Linux `NOTIFY_DONE` (0), the "no opinion" answer of a notifier callback;
`wrigley_process_reboot` always returns it. -/
def NOTIFY_DONE : Int := 0

/-- The mutable state of `struct wrigley_info` together with the driven
levels of the three output GPIO lines.  `rdev_dev` models whether
`info->rdev.dev` is non-NULL, i.e. whether the radio-class device
registration is active (checked before emitting uevents). -/
structure WrigleyInfo where
  boot_flash : Bool
  tcmd_suspended : Bool
  status : Nat
  disable_level : Bool
  power_level : Bool
  flash_level : Bool
  rdev_dev : Bool
  deriving Repr, DecidableEq

/-- Return value of an interrupt handler: `IRQ_HANDLED` or
`IRQ_WAKE_THREAD` (the latter schedules the threaded bottom half). -/
inductive IrqReturn where
  | handled
  | wakeThread
  deriving Repr, DecidableEq

/-- An observable side effect: a `KOBJ_CHANGE` uevent with the given
environment strings, or an invocation of `wrigley_do_powerdown`. -/
inductive WEvent where
  | uevent (env : List String)
  | powerdownCall
  deriving Repr, DecidableEq

/-- The verification loop of `wrigley_do_powerup` (lines 148-156): sample
the reset-sense line up to 10 times, succeeding as soon as a sample reads
high.  `reads i` is the level observed at iteration `i`. -/
def wrigleyPollHigh (reads : Nat → Bool) : Bool :=
  (List.range 10).any fun i => reads i

/-- The verification loop of `wrigley_do_powerdown` (lines 105-113): sample
the reset-sense line up to 10 times, succeeding as soon as a sample reads
low.  Its outcome is only logged by the C code. -/
def wrigleyPollLow (reads : Nat → Bool) : Bool :=
  (List.range 10).any fun i => !(reads i)

/-- `wrigley_do_powerdown` (lines 90-119): if already `OFF`, log and return
0 unchanged; otherwise drive disable low, poll the reset line (outcome
only logged), then drive power low, set status `OFF` and return 0. -/
def wrigley_do_powerdown (reads : Nat → Bool) (info : WrigleyInfo) :
    Int × WrigleyInfo :=
  if info.status = WRIGLEY_STATUS_OFF then
    (0, info)
  else
    let info1 : WrigleyInfo := { info with disable_level := false }
    let _ := wrigleyPollLow reads
    (0, { info1 with power_level := false, status := WRIGLEY_STATUS_OFF })

/-- `wrigley_do_powerup` (lines 121-175): if status is `FLASH` or `NORMAL`,
return `err = -1` unchanged; otherwise drive the flash strap from
`boot_flash`, drive disable and power high, poll the reset line for a high
sample; on success set status from `boot_flash` and return 0, on
exhaustion set status `UNDEFINED` and return -1. -/
def wrigley_do_powerup (reads : Nat → Bool) (info : WrigleyInfo) :
    Int × WrigleyInfo :=
  if info.status = WRIGLEY_STATUS_FLASH ∨ info.status = WRIGLEY_STATUS_NORMAL then
    (-1, info)
  else
    let info1 : WrigleyInfo :=
      { info with flash_level := info.boot_flash,
                  disable_level := true, power_level := true }
    if wrigleyPollHigh reads then
      if info1.boot_flash then
        (0, { info1 with status := WRIGLEY_STATUS_FLASH })
      else
        (0, { info1 with status := WRIGLEY_STATUS_NORMAL })
    else
      (-1, { info1 with status := WRIGLEY_STATUS_UNDEFINED })

/-- `wrigley_set_flash_mode` (lines 177-182): store the boot-mode flag,
always return 0. -/
def wrigley_set_flash_mode (info : WrigleyInfo) (enable : Bool) :
    Int × WrigleyInfo :=
  (0, { info with boot_flash := enable })

/-- `wrigley_command` (lines 184-206): exact-match dispatch of the command
string; `"suspend"` sets `tcmd_suspended` inline; any other string returns
`-EINVAL` unchanged. -/
def wrigley_command (reads : Nat → Bool) (info : WrigleyInfo) (cmd : String) :
    Int × WrigleyInfo :=
  if cmd = "shutdown" then
    wrigley_do_powerdown reads info
  else if cmd = "powerup" then
    wrigley_do_powerup reads info
  else if cmd = "bootmode_normal" then
    wrigley_set_flash_mode info false
  else if cmd = "bootmode_flash" then
    wrigley_set_flash_mode info true
  else if cmd = "suspend" then
    (0, { info with tcmd_suspended := true })
  else
    (-EINVAL, info)

/-- `wrigley_reset_isr` (lines 218-227), the fast interrupt phase: when
`tcmd_suspended` just acknowledge (`IRQ_HANDLED`, no state change);
otherwise set status `RESETTING` and request the threaded bottom half
(`IRQ_WAKE_THREAD`). -/
def wrigley_reset_isr (info : WrigleyInfo) : IrqReturn × WrigleyInfo :=
  if info.tcmd_suspended then
    (IrqReturn.handled, info)
  else
    (IrqReturn.wakeThread, { info with status := WRIGLEY_STATUS_RESETTING })

/-- `wrigley_reset_fn` (lines 208-216), the deferred interrupt phase: drive
the power line low and, when the radio device registration is active, emit
a `KOBJ_CHANGE` uevent (no environment strings). -/
def wrigley_reset_fn (info : WrigleyInfo) :
    IrqReturn × List WEvent × WrigleyInfo :=
  let info1 : WrigleyInfo := { info with power_level := false }
  (IrqReturn.handled,
   if info1.rdev_dev then [WEvent.uevent []] else [],
   info1)

/-- A complete reset interrupt as wired by `request_threaded_irq` (line
275): the fast phase runs first, and the deferred phase runs exactly when
the fast phase returned `IRQ_WAKE_THREAD`.  Result: the emitted events and
the final state. -/
def wrigley_reset_interrupt (info : WrigleyInfo) : List WEvent × WrigleyInfo :=
  let r := wrigley_reset_isr info
  if r.1 = IrqReturn.wakeThread then
    let d := wrigley_reset_fn r.2
    (d.2.1, d.2.2)
  else
    ([], r.2)

/-- The status token table `wrigley_status_str` (lines 47-53).
Modelled from the spec: the token strings come from the
`RADIO_STATUS_*_NAME` macros of `linux/radio_ctrl/radio_class.h`, which is
not part of this repository's sources; §6 of the spec fixes them as the
literal tokens `normal`, `flash`, `resetting`, `off`, `undefined`. -/
def wrigley_status_str (s : Nat) : String :=
  if s = WRIGLEY_STATUS_NORMAL then "normal"
  else if s = WRIGLEY_STATUS_FLASH then "flash"
  else if s = WRIGLEY_STATUS_RESETTING then "resetting"
  else if s = WRIGLEY_STATUS_OFF then "off"
  else "undefined"

/-- `wrigley_status_show` (lines 77-88): clamp an out-of-range status to
`UNDEFINED` by writing it back into `info->status`, then render the token
followed by a newline.  Returns the rendered text and the (possibly
updated) state. -/
def wrigley_status_show (info : WrigleyInfo) : String × WrigleyInfo :=
  let info1 : WrigleyInfo :=
    if info.status > WRIGLEY_STATUS_UNDEFINED then
      { info with status := WRIGLEY_STATUS_UNDEFINED }
    else
      info
  (wrigley_status_str info1.status ++ "\n", info1)

/-- `wrigley_process_reboot` (lines 388-405), the reboot notifier: when the
radio device registration is active, emit a `KOBJ_CHANGE` uevent with
environment `WRIGLEY_SHUTDOWN=1`; then call `wrigley_do_powerdown`
(recorded in the trace, result discarded); always return `NOTIFY_DONE`.
The `event` argument is ignored by the C code. -/
def wrigley_process_reboot (event : Nat) (reads : Nat → Bool)
    (info : WrigleyInfo) : Int × List WEvent × WrigleyInfo :=
  let _ := event
  let pre : List WEvent :=
    if info.rdev_dev then [WEvent.uevent ["WRIGLEY_SHUTDOWN=1"]] else []
  let pd := wrigley_do_powerdown reads info
  (NOTIFY_DONE, pre ++ [WEvent.powerdownCall], pd.2)

/-- The state constructed by `wrigley_probe` (lines 316-326) at device
attach: `boot_flash` is sampled from the flash line, status is inferred
from the sampled reset line (`FLASH`/`NORMAL` when it reads high, `OFF`
when low), `tcmd_suspended` starts false.  The probe drives no output
line, so the disable, power and flash levels stay at the pre-existing
hardware levels supplied as arguments. -/
def wrigley_probe_init (disable power flash reset : Bool) : WrigleyInfo :=
  { boot_flash := flash
    tcmd_suspended := false
    status :=
      if reset then
        if flash then WRIGLEY_STATUS_FLASH else WRIGLEY_STATUS_NORMAL
      else WRIGLEY_STATUS_OFF
    disable_level := disable
    power_level := power
    flash_level := flash
    rdev_dev := true }

/-- The spec's §3 invariant: status `OFF` implies the power and disable
lines are driven low. -/
def WInv (info : WrigleyInfo) : Prop :=
  info.status = WRIGLEY_STATUS_OFF →
    info.power_level = false ∧ info.disable_level = false

instance (info : WrigleyInfo) : Decidable (WInv info) := by
  unfold WInv; infer_instance

/-- One externally triggerable transition of the controller after attach:
a command string (covering power up/down, boot mode and suspend, and the
`wrigley_shutdown` hook which only calls `wrigley_do_powerdown`), a reset
interrupt, a status read, or a reboot notification. -/
inductive WStep : WrigleyInfo → WrigleyInfo → Prop where
  | command (info : WrigleyInfo) (reads : Nat → Bool) (cmd : String) :
      WStep info (wrigley_command reads info cmd).2
  | reset (info : WrigleyInfo) :
      WStep info (wrigley_reset_interrupt info).2
  | statusShow (info : WrigleyInfo) :
      WStep info (wrigley_status_show info).2
  | reboot (info : WrigleyInfo) (event : Nat) (reads : Nat → Bool) :
      WStep info (wrigley_process_reboot event reads info).2.2

/-- Zero or more `WStep` transitions. -/
inductive WReach : WrigleyInfo → WrigleyInfo → Prop where
  | refl (s : WrigleyInfo) : WReach s s
  | tail (s t u : WrigleyInfo) : WReach s t → WStep t u → WReach s u

/-! ### Helper lemmas -/

lemma wrigleyPollHigh_eq_true_iff (reads : Nat → Bool) :
    wrigleyPollHigh reads = true ↔ ∃ i, i < 10 ∧ reads i = true := by
  simp [wrigleyPollHigh, List.any_eq_true, List.mem_range]

lemma wrigleyPollHigh_eq_false_iff (reads : Nat → Bool) :
    wrigleyPollHigh reads = false ↔ ∀ i, i < 10 → reads i = false := by
  rw [← Bool.not_eq_true, wrigleyPollHigh_eq_true_iff]
  push_neg
  simp


/-! ### Power-up transition (C1, C4, C10) -/

/-- C1: from every state whose status is neither `NORMAL` nor `FLASH`,
`wrigley_do_powerup` drives the flash strap from `boot_flash` and asserts
the disable and power lines; if any of the 10 reset-sense polls reads high
it returns 0 and sets status to `FLASH` when `boot_flash` and to `NORMAL`
otherwise; if all 10 polls read low it sets status to `UNDEFINED` and
returns the -1 failure code. -/
theorem powerup_transition_spec (reads : Nat → Bool) (info : WrigleyInfo)
    (h1 : info.status ≠ WRIGLEY_STATUS_NORMAL)
    (h2 : info.status ≠ WRIGLEY_STATUS_FLASH) :
    ((wrigley_do_powerup reads info).2.flash_level = info.boot_flash ∧
     (wrigley_do_powerup reads info).2.disable_level = true ∧
     (wrigley_do_powerup reads info).2.power_level = true) ∧
    ((∃ i, i < 10 ∧ reads i = true) →
       (wrigley_do_powerup reads info).1 = 0 ∧
       (wrigley_do_powerup reads info).2.status =
         (if info.boot_flash then WRIGLEY_STATUS_FLASH
          else WRIGLEY_STATUS_NORMAL)) ∧
    ((∀ i, i < 10 → reads i = false) →
       (wrigley_do_powerup reads info).1 = -1 ∧
       (wrigley_do_powerup reads info).2.status = WRIGLEY_STATUS_UNDEFINED) := by
  have hcond : ¬ (info.status = WRIGLEY_STATUS_FLASH ∨
      info.status = WRIGLEY_STATUS_NORMAL) := by
    rintro (h | h)
    · exact h2 h
    · exact h1 h
  cases hp : wrigleyPollHigh reads with
  | true =>
      refine ⟨?_, ?_, ?_⟩
      · cases hb : info.boot_flash <;>
          simp [wrigley_do_powerup, hcond, hp, hb]
      · intro _
        cases hb : info.boot_flash <;>
          simp [wrigley_do_powerup, hcond, hp, hb]
      · intro hall
        rcases (wrigleyPollHigh_eq_true_iff reads).1 hp with ⟨j, hj, hrj⟩
        rw [hall j hj] at hrj
        exact absurd hrj (by simp)
  | false =>
      refine ⟨?_, ?_, ?_⟩
      · simp [wrigley_do_powerup, hcond, hp]
      · rintro ⟨j, hj, hrj⟩
        rw [(wrigleyPollHigh_eq_false_iff reads).1 hp j hj] at hrj
        exact absurd hrj (by simp)
      · intro _
        simp [wrigley_do_powerup, hcond, hp]

/-- Concrete starting state used to instantiate `powerup_transition_spec`:
powered off with flash boot mode requested. -/
def powerupWitnessInfo : WrigleyInfo :=
  { boot_flash := true, tcmd_suspended := false, status := WRIGLEY_STATUS_OFF,
    disable_level := false, power_level := false, flash_level := false,
    rdev_dev := true }

/-- Witness for C1 at a concrete input: status `OFF`, reset line reading
high on the first poll, boot mode flash. -/
theorem powerup_transition_spec_witness :
    (powerupWitnessInfo.status ≠ WRIGLEY_STATUS_NORMAL ∧
     powerupWitnessInfo.status ≠ WRIGLEY_STATUS_FLASH) ∧
    (wrigley_do_powerup (fun _ => true) powerupWitnessInfo).1 = 0 ∧
    (wrigley_do_powerup (fun _ => true) powerupWitnessInfo).2.status =
      WRIGLEY_STATUS_FLASH := by
  refine ⟨⟨by decide, by decide⟩, ?_⟩
  have h := (powerup_transition_spec (fun _ => true) powerupWitnessInfo
    (by decide) (by decide)).2.1 ⟨0, by decide, rfl⟩
  simpa [powerupWitnessInfo] using h

/-- C4: `wrigley_do_powerup` called while status is `NORMAL` or `FLASH`
returns the -1 error and changes nothing at all: status, boot mode flag,
suspend flag and every line level are untouched. -/
theorem powerup_already_on_no_effect (reads : Nat → Bool) (info : WrigleyInfo)
    (h : info.status = WRIGLEY_STATUS_NORMAL ∨
         info.status = WRIGLEY_STATUS_FLASH) :
    wrigley_do_powerup reads info = (-1, info) := by
  unfold wrigley_do_powerup
  rw [if_pos h.symm]

/-- Witness for C4 at a concrete input: a powered-on (NORMAL) state. -/
theorem powerup_already_on_no_effect_witness :
    (powerupWitnessInfo.status = WRIGLEY_STATUS_NORMAL ∨
     ({ powerupWitnessInfo with
        status := WRIGLEY_STATUS_NORMAL } : WrigleyInfo).status =
       WRIGLEY_STATUS_NORMAL ∨
     ({ powerupWitnessInfo with
        status := WRIGLEY_STATUS_NORMAL } : WrigleyInfo).status =
       WRIGLEY_STATUS_FLASH) ∧
    wrigley_do_powerup (fun _ => true)
        { powerupWitnessInfo with status := WRIGLEY_STATUS_NORMAL } =
      (-1, { powerupWitnessInfo with status := WRIGLEY_STATUS_NORMAL }) := by
  refine ⟨Or.inr (Or.inl (by decide)), ?_⟩
  exact powerup_already_on_no_effect (fun _ => true) _ (Or.inl (by decide))

/-- C5: `wrigley_do_powerdown` from an `OFF` state returns 0 and changes
nothing, and a second call right after also returns 0 with the state still
unchanged (idempotence). -/
theorem powerdown_idempotent (reads reads' : Nat → Bool) (info : WrigleyInfo)
    (h : info.status = WRIGLEY_STATUS_OFF) :
    wrigley_do_powerdown reads info = (0, info) ∧
    wrigley_do_powerdown reads' (wrigley_do_powerdown reads info).2 =
      (0, info) := by
  have h1 : wrigley_do_powerdown reads info = (0, info) := by
    unfold wrigley_do_powerdown
    rw [if_pos h]
  refine ⟨h1, ?_⟩
  rw [h1]
  unfold wrigley_do_powerdown
  rw [if_pos h]

/-- Witness for C5 at a concrete input: already-off state, two calls. -/
theorem powerdown_idempotent_witness :
    powerupWitnessInfo.status = WRIGLEY_STATUS_OFF ∧
    wrigley_do_powerdown (fun _ => false) powerupWitnessInfo =
      (0, powerupWitnessInfo) ∧
    wrigley_do_powerdown (fun _ => true)
        (wrigley_do_powerdown (fun _ => false) powerupWitnessInfo).2 =
      (0, powerupWitnessInfo) := by
  have h := powerdown_idempotent (fun _ => false) (fun _ => true)
    powerupWitnessInfo (by decide)
  exact ⟨by decide, h.1, h.2⟩

/-! ### Power-down (C2) -/

/-- Concrete state refuting C2 as stated: status already `OFF` but the
power line still driven high (as can happen right after attach, where the
probe infers `OFF` without driving any line). -/
def offPowerHighInfo : WrigleyInfo :=
  { boot_flash := false, tcmd_suspended := false, status := WRIGLEY_STATUS_OFF,
    disable_level := false, power_level := true, flash_level := false,
    rdev_dev := true }

/-- Counterexample to C2 as stated: from `offPowerHighInfo` (status `OFF`,
power line high) `wrigley_do_powerdown` takes the already-off early return,
so it does end with status `OFF` and result 0, but the POWER line is NOT
low — the early return writes no line. -/
theorem powerdown_power_line_counterexample :
    (wrigley_do_powerdown (fun _ => false) offPowerHighInfo).1 = 0 ∧
    (wrigley_do_powerdown (fun _ => false) offPowerHighInfo).2.status =
      WRIGLEY_STATUS_OFF ∧
    ¬ (wrigley_do_powerdown (fun _ => false) offPowerHighInfo).2.power_level
        = false := by
  refine ⟨?_, ?_, ?_⟩ <;> simp [wrigley_do_powerdown, offPowerHighInfo]

/-- C2 amended: for every starting state and every polling environment,
`wrigley_do_powerdown` returns 0 and ends with status `OFF`; whenever the
starting status is not already `OFF` it additionally ends with the POWER
and DISABLE lines driven low; and the polling outcome never influences the
return value or the final state (the result is identical for any two
environments). -/
theorem powerdown_always_succeeds (reads reads' : Nat → Bool)
    (info : WrigleyInfo) :
    (wrigley_do_powerdown reads info).1 = 0 ∧
    (wrigley_do_powerdown reads info).2.status = WRIGLEY_STATUS_OFF ∧
    (info.status ≠ WRIGLEY_STATUS_OFF →
       (wrigley_do_powerdown reads info).2.power_level = false ∧
       (wrigley_do_powerdown reads info).2.disable_level = false) ∧
    wrigley_do_powerdown reads info = wrigley_do_powerdown reads' info := by
  by_cases h : info.status = WRIGLEY_STATUS_OFF <;>
    simp [wrigley_do_powerdown, h]

/-- Witness for the amended C2 at a concrete input: powered-on state, line
never observed low, two different polling environments. -/
theorem powerdown_always_succeeds_witness :
    ({ offPowerHighInfo with
       status := WRIGLEY_STATUS_NORMAL } : WrigleyInfo).status ≠
      WRIGLEY_STATUS_OFF ∧
    (wrigley_do_powerdown (fun _ => true)
        { offPowerHighInfo with status := WRIGLEY_STATUS_NORMAL }).1 = 0 ∧
    (wrigley_do_powerdown (fun _ => true)
        { offPowerHighInfo with status := WRIGLEY_STATUS_NORMAL }).2.power_level
      = false ∧
    wrigley_do_powerdown (fun _ => true)
        { offPowerHighInfo with status := WRIGLEY_STATUS_NORMAL } =
      wrigley_do_powerdown (fun _ => false)
        { offPowerHighInfo with status := WRIGLEY_STATUS_NORMAL } := by
  have h := powerdown_always_succeeds (fun _ => true) (fun _ => false)
    { offPowerHighInfo with status := WRIGLEY_STATUS_NORMAL }
  exact ⟨by decide, h.1, (h.2.2.1 (by decide)).1, h.2.2.2⟩

/-! ### Error-code indistinguishability (C10) -/

/-- C10: `wrigley_do_powerup` returns the same `-1` in both of its failure
cases — already powered on, and verification-poll exhaustion — and
`wrigley_command "powerup"` forwards that value unchanged, so a caller
cannot tell the two failures apart; only the unsupported-command code
`-EINVAL` is distinct from `-1`. -/
theorem powerup_error_code_indistinct (reads1 reads2 : Nat → Bool)
    (info1 info2 : WrigleyInfo)
    (h1 : info1.status = WRIGLEY_STATUS_NORMAL ∨
          info1.status = WRIGLEY_STATUS_FLASH)
    (h2n : info2.status ≠ WRIGLEY_STATUS_NORMAL)
    (h2f : info2.status ≠ WRIGLEY_STATUS_FLASH)
    (hp : ∀ i, i < 10 → reads2 i = false) :
    (wrigley_do_powerup reads1 info1).1 = -1 ∧
    (wrigley_do_powerup reads2 info2).1 = -1 ∧
    (wrigley_do_powerup reads1 info1).1 = (wrigley_do_powerup reads2 info2).1 ∧
    wrigley_command reads1 info1 "powerup" = wrigley_do_powerup reads1 info1 ∧
    wrigley_command reads2 info2 "powerup" = wrigley_do_powerup reads2 info2 ∧
    (-1 : Int) ≠ -EINVAL := by
  have ha : (wrigley_do_powerup reads1 info1).1 = -1 := by
    unfold wrigley_do_powerup
    rw [if_pos h1.symm]
  have hcond : ¬ (info2.status = WRIGLEY_STATUS_FLASH ∨
      info2.status = WRIGLEY_STATUS_NORMAL) := by
    rintro (h | h)
    · exact h2f h
    · exact h2n h
  have hp' : wrigleyPollHigh reads2 = false :=
    (wrigleyPollHigh_eq_false_iff reads2).2 hp
  have hb : (wrigley_do_powerup reads2 info2).1 = -1 := by
    simp [wrigley_do_powerup, hcond, hp']
  refine ⟨ha, hb, ha.trans hb.symm, ?_, ?_, by decide⟩
  · simp [wrigley_command]
  · simp [wrigley_command]

/-- Witness for C10 at concrete inputs: a NORMAL state (already powered
on) and an OFF state whose polls all read low. -/
theorem powerup_error_code_indistinct_witness :
    ((powerupWitnessInfo.status = WRIGLEY_STATUS_NORMAL ∨
      ({ powerupWitnessInfo with
         status := WRIGLEY_STATUS_NORMAL } : WrigleyInfo).status =
        WRIGLEY_STATUS_NORMAL ∨
      ({ powerupWitnessInfo with
         status := WRIGLEY_STATUS_NORMAL } : WrigleyInfo).status =
        WRIGLEY_STATUS_FLASH) ∧
     powerupWitnessInfo.status ≠ WRIGLEY_STATUS_NORMAL ∧
     powerupWitnessInfo.status ≠ WRIGLEY_STATUS_FLASH) ∧
    (wrigley_do_powerup (fun _ => true)
        { powerupWitnessInfo with status := WRIGLEY_STATUS_NORMAL }).1 =
      (wrigley_do_powerup (fun _ => false) powerupWitnessInfo).1 ∧
    (-1 : Int) ≠ -EINVAL := by
  have h := powerup_error_code_indistinct (fun _ => true) (fun _ => false)
    { powerupWitnessInfo with status := WRIGLEY_STATUS_NORMAL }
    powerupWitnessInfo (Or.inl (by decide)) (by decide) (by decide)
    (fun i _ => rfl)
  exact ⟨⟨Or.inr (Or.inl (by decide)), by decide, by decide⟩,
    h.2.2.1, h.2.2.2.2.2⟩

/-! ### Reset interrupt fast phase (C3) -/

/-- C3: when `tcmd_suspended` the fast phase acknowledges and changes
nothing — the state is untouched, the deferred phase is not requested, and
the whole interrupt emits no event; when not suspended the fast phase sets
status to `RESETTING` (all other fields unchanged) and requests the
deferred phase via `IRQ_WAKE_THREAD`. -/
theorem reset_isr_spec (info : WrigleyInfo) :
    (info.tcmd_suspended = true →
       wrigley_reset_isr info = (IrqReturn.handled, info) ∧
       wrigley_reset_interrupt info = ([], info)) ∧
    (info.tcmd_suspended = false →
       wrigley_reset_isr info =
         (IrqReturn.wakeThread,
          { info with status := WRIGLEY_STATUS_RESETTING })) := by
  constructor <;> intro h <;>
    simp [wrigley_reset_isr, wrigley_reset_interrupt, h]

/-- Concrete suspended state used to instantiate `reset_isr_spec`. -/
def suspendedResettingInfo : WrigleyInfo :=
  { boot_flash := false, tcmd_suspended := true,
    status := WRIGLEY_STATUS_NORMAL, disable_level := true,
    power_level := true, flash_level := false, rdev_dev := true }

/-- Witness for C3 at a concrete input: a suspended, powered-on state. -/
theorem reset_isr_spec_witness :
    suspendedResettingInfo.tcmd_suspended = true ∧
    wrigley_reset_isr suspendedResettingInfo =
      (IrqReturn.handled, suspendedResettingInfo) ∧
    wrigley_reset_interrupt suspendedResettingInfo =
      ([], suspendedResettingInfo) := by
  have h := (reset_isr_spec suspendedResettingInfo).1 (by decide)
  exact ⟨by decide, h.1, h.2⟩

/-! ### Command dispatch (C6) -/

/-- C6: `wrigley_command` dispatches exactly the five strings `"shutdown"`,
`"powerup"`, `"bootmode_normal"`, `"bootmode_flash"`, `"suspend"` to power
down, power up, boot-mode clear, boot-mode set and suspend respectively,
and returns `-EINVAL` leaving the state untouched for any other string. -/
theorem command_dispatch_spec (reads : Nat → Bool) (info : WrigleyInfo)
    (cmd : String) :
    wrigley_command reads info "shutdown" = wrigley_do_powerdown reads info ∧
    wrigley_command reads info "powerup" = wrigley_do_powerup reads info ∧
    wrigley_command reads info "bootmode_normal" =
      wrigley_set_flash_mode info false ∧
    wrigley_command reads info "bootmode_flash" =
      wrigley_set_flash_mode info true ∧
    wrigley_command reads info "suspend" =
      (0, { info with tcmd_suspended := true }) ∧
    (cmd ≠ "shutdown" → cmd ≠ "powerup" → cmd ≠ "bootmode_normal" →
     cmd ≠ "bootmode_flash" → cmd ≠ "suspend" →
       wrigley_command reads info cmd = (-EINVAL, info)) := by
  refine ⟨by simp [wrigley_command], by simp [wrigley_command],
    by simp [wrigley_command], by simp [wrigley_command],
    by simp [wrigley_command], ?_⟩
  intro n1 n2 n3 n4 n5
  simp [wrigley_command, n1, n2, n3, n4, n5]

/-- Witness for C6 at a concrete input: the unknown command `"resume"`
against a powered-on state (state and flags untouched, `-EINVAL`). -/
theorem command_dispatch_spec_witness :
    (("resume" : String) ≠ "shutdown" ∧ ("resume" : String) ≠ "powerup" ∧
     ("resume" : String) ≠ "bootmode_normal" ∧
     ("resume" : String) ≠ "bootmode_flash" ∧
     ("resume" : String) ≠ "suspend") ∧
    wrigley_command (fun _ => false) suspendedResettingInfo "resume" =
      (-EINVAL, suspendedResettingInfo) := by
  refine ⟨⟨by decide, by decide, by decide, by decide, by decide⟩, ?_⟩
  exact (command_dispatch_spec (fun _ => false) suspendedResettingInfo
    "resume").2.2.2.2.2 (by decide) (by decide) (by decide) (by decide)
    (by decide)

/-! ### Status rendering (C8) -/

/-- Concrete state with an out-of-range numeric status (5). -/
def outOfRangeInfo : WrigleyInfo :=
  { boot_flash := false, tcmd_suspended := false, status := 5,
    disable_level := true, power_level := true, flash_level := false,
    rdev_dev := true }

/-- Counterexample to C8 as stated: on a state with the out-of-range
status 5, `wrigley_status_show` is not read-only — the defensive clamp
writes `UNDEFINED` back into the stored status, so the resulting
`WrigleyInfo` differs from the input. -/
theorem status_show_mutates_counterexample :
    (wrigley_status_show outOfRangeInfo).2 ≠ outOfRangeInfo ∧
    (wrigley_status_show outOfRangeInfo).2.status =
      WRIGLEY_STATUS_UNDEFINED := by
  constructor <;> decide

/-- C8 amended: `wrigley_status_show` renders the canonical token of the
status clamped to the defined range (followed by a newline); it never
touches the boot-mode flag, suspend flag or line levels, and it leaves the
whole state unchanged whenever the stored status is already in range — but
for an out-of-range status the clamp writes `UNDEFINED` back into the
state. -/
theorem status_show_spec (info : WrigleyInfo) :
    (wrigley_status_show info).1 =
      wrigley_status_str (min info.status WRIGLEY_STATUS_UNDEFINED) ++ "\n" ∧
    (wrigley_status_show info).2.status =
      min info.status WRIGLEY_STATUS_UNDEFINED ∧
    (wrigley_status_show info).2.boot_flash = info.boot_flash ∧
    (wrigley_status_show info).2.tcmd_suspended = info.tcmd_suspended ∧
    (wrigley_status_show info).2.disable_level = info.disable_level ∧
    (wrigley_status_show info).2.power_level = info.power_level ∧
    (wrigley_status_show info).2.flash_level = info.flash_level ∧
    (info.status ≤ WRIGLEY_STATUS_UNDEFINED →
       (wrigley_status_show info).2 = info) := by
  by_cases h : info.status > WRIGLEY_STATUS_UNDEFINED
  · have hmin : min info.status WRIGLEY_STATUS_UNDEFINED =
        WRIGLEY_STATUS_UNDEFINED := Nat.min_eq_right (Nat.le_of_lt h)
    have hle : ¬ info.status ≤ WRIGLEY_STATUS_UNDEFINED := Nat.not_le.2 h
    simp [wrigley_status_show, h, hmin, hle]
  · have hle : info.status ≤ WRIGLEY_STATUS_UNDEFINED := Nat.not_lt.1 h
    have hmin : min info.status WRIGLEY_STATUS_UNDEFINED = info.status :=
      Nat.min_eq_left hle
    simp [wrigley_status_show, h, hmin]

/-- Witness for the amended C8 at a concrete in-range input (status
`OFF`): the text is `off` plus newline and the state is unchanged. -/
theorem status_show_spec_witness :
    offPowerHighInfo.status ≤ WRIGLEY_STATUS_UNDEFINED ∧
    (wrigley_status_show offPowerHighInfo).1 = "off\n" ∧
    (wrigley_status_show offPowerHighInfo).2 = offPowerHighInfo := by
  have h := status_show_spec offPowerHighInfo
  exact ⟨by decide, by rw [h.1]; rfl, h.2.2.2.2.2.2.2 (by decide)⟩

/-! ### Reboot hook (C9) -/

/-- C9: for every state (any status, `OFF` included), the reboot notifier
returns `NOTIFY_DONE` ("no opinion"), its event trace is exactly one
`WRIGLEY_SHUTDOWN=1` uevent (present precisely when the device
registration is active) followed by exactly one `wrigley_do_powerdown`
invocation, and the resulting state is the power-down result (whose status
is always `OFF`) — the power-down return value is discarded. -/
theorem process_reboot_spec (event : Nat) (reads : Nat → Bool)
    (info : WrigleyInfo) :
    (wrigley_process_reboot event reads info).1 = NOTIFY_DONE ∧
    (wrigley_process_reboot event reads info).2.1 =
      (if info.rdev_dev then [WEvent.uevent ["WRIGLEY_SHUTDOWN=1"]] else [])
        ++ [WEvent.powerdownCall] ∧
    List.count WEvent.powerdownCall
      (wrigley_process_reboot event reads info).2.1 = 1 ∧
    List.count (WEvent.uevent ["WRIGLEY_SHUTDOWN=1"])
      (wrigley_process_reboot event reads info).2.1 =
      (if info.rdev_dev then 1 else 0) ∧
    (wrigley_process_reboot event reads info).2.2 =
      (wrigley_do_powerdown reads info).2 ∧
    (wrigley_process_reboot event reads info).2.2.status =
      WRIGLEY_STATUS_OFF := by
  refine ⟨rfl, ?_, ?_, ?_, rfl, ?_⟩
  · by_cases hr : info.rdev_dev <;> simp [wrigley_process_reboot, hr]
  · by_cases hr : info.rdev_dev <;> simp [wrigley_process_reboot, hr]
  · by_cases hr : info.rdev_dev <;> simp [wrigley_process_reboot, hr]
  · by_cases h : info.status = WRIGLEY_STATUS_OFF <;>
      simp [wrigley_process_reboot, wrigley_do_powerdown, h]

/-! ### The OFF-implies-lines-low invariant (C7) -/

/-- Counterexample to C7 as stated: the attach-time initial state is
reachable (zero steps), yet when the hardware comes up with the reset line
sampling low but the power line high, `wrigley_probe` infers status `OFF`
without driving any output line, so the state violates the invariant. -/
theorem probe_off_invariant_counterexample :
    WReach (wrigley_probe_init false true false false)
      (wrigley_probe_init false true false false) ∧
    (wrigley_probe_init false true false false).status =
      WRIGLEY_STATUS_OFF ∧
    ¬ WInv (wrigley_probe_init false true false false) :=
  ⟨WReach.refl _, by decide, by decide⟩

lemma winv_powerdown (reads : Nat → Bool) (info : WrigleyInfo)
    (h : WInv info) : WInv (wrigley_do_powerdown reads info).2 := by
  by_cases hs : info.status = WRIGLEY_STATUS_OFF
  · simpa [wrigley_do_powerdown, hs] using h
  · intro _
    simp [wrigley_do_powerdown, hs]

lemma winv_powerup (reads : Nat → Bool) (info : WrigleyInfo)
    (h : WInv info) : WInv (wrigley_do_powerup reads info).2 := by
  by_cases hs : (info.status = WRIGLEY_STATUS_FLASH ∨
      info.status = WRIGLEY_STATUS_NORMAL)
  · simpa [wrigley_do_powerup, hs] using h
  · intro hoff
    revert hoff
    unfold wrigley_do_powerup
    rw [if_neg hs]
    cases hp : wrigleyPollHigh reads <;> cases hb : info.boot_flash <;>
      simp [hp, hb, WRIGLEY_STATUS_FLASH, WRIGLEY_STATUS_NORMAL,
        WRIGLEY_STATUS_OFF, WRIGLEY_STATUS_UNDEFINED]

lemma winv_command (reads : Nat → Bool) (info : WrigleyInfo) (cmd : String)
    (h : WInv info) : WInv (wrigley_command reads info cmd).2 := by
  unfold wrigley_command
  by_cases h1 : cmd = "shutdown"
  · rw [if_pos h1]
    exact winv_powerdown reads info h
  rw [if_neg h1]
  by_cases h2 : cmd = "powerup"
  · rw [if_pos h2]
    exact winv_powerup reads info h
  rw [if_neg h2]
  by_cases h3 : cmd = "bootmode_normal"
  · rw [if_pos h3]
    intro hoff
    exact h hoff
  rw [if_neg h3]
  by_cases h4 : cmd = "bootmode_flash"
  · rw [if_pos h4]
    intro hoff
    exact h hoff
  rw [if_neg h4]
  by_cases h5 : cmd = "suspend"
  · rw [if_pos h5]
    intro hoff
    exact h hoff
  rw [if_neg h5]
  exact h

lemma winv_reset (info : WrigleyInfo) (h : WInv info) :
    WInv (wrigley_reset_interrupt info).2 := by
  by_cases hs : info.tcmd_suspended
  · simpa [wrigley_reset_interrupt, wrigley_reset_isr, hs] using h
  · intro hoff
    revert hoff
    simp [wrigley_reset_interrupt, wrigley_reset_isr, wrigley_reset_fn, hs,
      WRIGLEY_STATUS_RESETTING, WRIGLEY_STATUS_OFF]

lemma winv_status_show (info : WrigleyInfo) (h : WInv info) :
    WInv (wrigley_status_show info).2 := by
  by_cases hs : info.status > WRIGLEY_STATUS_UNDEFINED
  · have hs' : 4 < info.status := hs
    intro hoff
    revert hoff
    simp [wrigley_status_show, hs', WRIGLEY_STATUS_UNDEFINED,
      WRIGLEY_STATUS_OFF]
  · simpa [wrigley_status_show, hs] using h

lemma winv_reboot (event : Nat) (reads : Nat → Bool) (info : WrigleyInfo)
    (h : WInv info) : WInv (wrigley_process_reboot event reads info).2.2 := by
  have heq : (wrigley_process_reboot event reads info).2.2 =
      (wrigley_do_powerdown reads info).2 := rfl
  rw [heq]
  exact winv_powerdown reads info h

lemma winv_step {s t : WrigleyInfo} (h0 : WInv s) (h : WStep s t) :
    WInv t := by
  cases h with
  | command reads cmd => exact winv_command reads _ cmd h0
  | reset => exact winv_reset _ h0
  | statusShow => exact winv_status_show _ h0
  | reboot event reads => exact winv_reboot event reads _ h0

/-- C7 amended: every controller operation preserves the invariant
"status `OFF` implies the POWER and DISABLE lines are driven low", so the
invariant holds in every state reachable from a state satisfying it.  (It
is not established by `wrigley_probe` itself, which drives no output
line — see the counterexample.) -/
theorem winv_preserved_reachable (s t : WrigleyInfo) (h0 : WInv s)
    (h : WReach s t) : WInv t := by
  induction h with
  | refl => exact h0
  | tail b c hr hstep ih => exact winv_step ih hstep

/-- Witness for the amended C7 at a concrete input: an initial OFF state
with both lines low, one `powerup` command step. -/
theorem winv_preserved_reachable_witness :
    WInv powerupWitnessInfo ∧
    WInv (wrigley_command (fun _ => false) powerupWitnessInfo "powerup").2 :=
  ⟨by decide,
   winv_preserved_reachable powerupWitnessInfo _ (by decide)
     (WReach.tail _ _ _ (WReach.refl _)
       (WStep.command powerupWitnessInfo (fun _ => false) "powerup"))⟩
